import Mathlib

/-!
Verification development for the visual-regression baseline generator
(`generate-visual-baseline.ts` and its duplicated module variant).

The TypeScript code is shallowly embedded: JavaScript strings are Lean
`String`s and the JS string methods used by the code (`startsWith`,
`endsWith`, `includes`, `slice` with a negative bound, `replace`) are
modeled at the character level on `String.data`.  Platform behavior that
is not part of the repository (the WHATWG `URL` parser, `page.goto`,
`page.screenshot`, timers) is abstracted into explicit function
parameters or event traces, so every repository function stays a total,
executable Lean definition.
-/

/-- Model of JS `s.startsWith(pre)` (character-level prefix test). -/
def jsStartsWith (s pre : String) : Bool :=
  pre.data.isPrefixOf s.data

/-- Model of JS `s.endsWith(suf)` (character-level suffix test). -/
def jsEndsWith (s suf : String) : Bool :=
  suf.data.isSuffixOf s.data

/-- Character-level infix test used to model JS `String.prototype.includes`. -/
def charListInfix (needle : List Char) : List Char → Bool
  | [] => needle.isEmpty
  | b :: bs => needle.isPrefixOf (b :: bs) || charListInfix needle bs

/-- Model of JS `s.includes(sub)`. -/
def jsIncludes (s sub : String) : Bool :=
  charListInfix sub.data s.data

/-- Model of JS `s.slice(0, -n)`: all characters but the last `n`. -/
def jsSliceToNeg (s : String) (n : Nat) : String :=
  ⟨s.data.take (s.data.length - n)⟩

/-- Model of JS `s.replace(/\//g, "-")`: every slash becomes a hyphen. -/
def jsSlashToDash (s : String) : String :=
  ⟨s.data.map (fun c => if c == '/' then '-' else c)⟩

/-- Model of JS replacing the anchored-leading-hyphen regex with the
empty string: drop one leading hyphen if present. -/
def jsStripLeadingDash (s : String) : String :=
  match s.data with
  | '-' :: rest => ⟨rest⟩
  | _ => s

/--
Crawler configuration (`CrawlConfig` in `crawler-config.ts`).  The
`viewports` field (raw, pre-validation) and the floating-point
`maxDiffPixelRatio` threshold are not needed by any verified component
and are omitted.
-/
structure CrawlConfig where
  timeout : Nat
  externalResourceTimeout : Nat
  ignoreQueryParams : Bool
  blacklistPatterns : List String
  outputDir : String
  manifestPath : String
  hideSelectors : List String
  maskSelectors : List String
  whitelistedDomains : List String
  blacklistedDomains : List String
deriving Repr, DecidableEq

/-- `defaultConfig` from `crawler-config.ts` (verified fields only). -/
def defaultConfig : CrawlConfig where
  timeout := 30000
  externalResourceTimeout := 20000
  ignoreQueryParams := true
  blacklistPatterns := []
  outputDir := ".visual-regression/screenshots/baseline"
  manifestPath := ".visual-regression/manifest.json"
  hideSelectors := []
  maskSelectors :=
    ["iframe[src*=\"youtube.com\"]",
     "iframe[src*=\"youtube-nocookie.com\"]",
     "iframe[src*=\"vimeo.com\"]",
     "iframe[src*=\"dailymotion.com\"]",
     "iframe[src*=\"spotify.com\"]",
     "iframe[src*=\"soundcloud.com\"]",
     "iframe[src*=\"twitter.com\"]",
     "iframe[src*=\"x.com\"]",
     "iframe[src*=\"facebook.com\"]",
     "iframe[src*=\"instagram.com\"]",
     "iframe[src*=\"tiktok.com\"]",
     "iframe[src*=\"google.com/maps\"]"]
  whitelistedDomains :=
    ["youtube.com", "youtube-nocookie.com", "ytimg.com", "googlevideo.com",
     "ggpht.com", "vimeo.com", "vimeocdn.com"]
  blacklistedDomains := []

/--
Result of the WHATWG URL constructor `new URL(url, base)`: the fields of
the parsed object that `normalizePath` reads.  The parser itself is a
platform primitive, so `normalizePath` takes the parsing function as an
explicit argument; a parse exception is an `Except.error`.
-/
structure ParsedURL where
  href : String
  pathname : String
  search : String
deriving Repr, DecidableEq

/-- The `PageCrawler` object state that `normalizePath`/`isBlacklisted` read. -/
structure PageCrawler where
  baseUrl : String
  config : CrawlConfig

/--
`PageCrawler.isBlacklisted` : iterate the exclusion patterns; a pattern
ending in `/*` matches when the path starts with the pattern minus its
last two characters, any other pattern matches only the identical path.
-/
def PageCrawler.isBlacklisted (c : PageCrawler) (urlPath : String) : Bool :=
  c.config.blacklistPatterns.any (fun pattern =>
    if jsEndsWith pattern "/*" then
      jsStartsWith urlPath (jsSliceToNeg pattern 2)
    else
      urlPath == pattern)

/--
The `try` body of `PageCrawler.normalizePath`: resolve against the base
URL (`parseUrl url baseUrl` models `new URL(url, this.baseUrl)`; an
`error` is the thrown parse exception), reject when the resolved `href`
does not start with the base URL, clear the query string when
`ignoreQueryParams` is set, strip one trailing slash unless the path is
exactly `/`, and reject blacklisted paths.
-/
def PageCrawler.normalizePathBody (c : PageCrawler)
    (parseUrl : String → String → Except String ParsedURL) (url : String) :
    Except String (Option String) :=
  match parseUrl url c.baseUrl with
  | .error e => .error e
  | .ok parsed =>
    if !(jsStartsWith parsed.href c.baseUrl) then .ok none
    else
      let parsed := if c.config.ignoreQueryParams then { parsed with search := "" } else parsed
      let urlPath := parsed.pathname
      let urlPath :=
        if urlPath != "/" && jsEndsWith urlPath "/" then jsSliceToNeg urlPath 1 else urlPath
      if c.isBlacklisted urlPath then .ok none else .ok (some urlPath)

/--
`PageCrawler.normalizePath`: the body wrapped in the `try ... catch {
return null }` boundary — any exception raised inside becomes `none`.
-/
def PageCrawler.normalizePath (c : PageCrawler)
    (parseUrl : String → String → Except String ParsedURL) (url : String) :
    Option String :=
  match c.normalizePathBody parseUrl url with
  | .ok r => r
  | .error _ => none

/-- A crawler whose exclusion list is the single wildcard pattern. -/
def adminWildcardCrawler : PageCrawler :=
  ⟨"https://localhost", { defaultConfig with blacklistPatterns := ["/admin/*"] }⟩

/-- A crawler whose exclusion list is the single exact pattern. -/
def adminExactCrawler : PageCrawler :=
  ⟨"https://localhost", { defaultConfig with blacklistPatterns := ["/admin"] }⟩

/--
Outcome of the crawler's per-path page interaction (`page.goto` plus
link extraction), abstracting the browser: `navFail` is a navigation
exception or an absent / non-OK response; `extractFail` is a successful
navigation whose anchor extraction then threw; `ok links` is a
successful navigation yielding the `href` of every anchor on the page.
-/
inductive PageResult where
  | navFail
  | extractFail
  | ok (links : List String)

/-- Mutable state of one `PageCrawler.crawl` invocation, plus `navLog`,
a ghost trace recording every path the crawler navigates to, in order. -/
structure CrawlState where
  visited : List String
  discoveredPaths : List String
  queue : List String
  navLog : List String

/--
The `while (queue.length > 0)` loop of `PageCrawler.crawl`: pop the
front, skip if visited, mark visited, navigate (`site`), on success add
to `discoveredPaths` and enqueue each normalized not-yet-visited,
truthy link.  `fuel` bounds the iteration count so the function is
total; every claim below holds for every fuel value.
-/
def PageCrawler.crawlLoop (c : PageCrawler)
    (parseUrl : String → String → Except String ParsedURL)
    (site : String → PageResult) : Nat → CrawlState → CrawlState
  | 0, st => st
  | fuel + 1, st =>
    match st.queue with
    | [] => st
    | currentPath :: rest =>
      if st.visited.contains currentPath then
        c.crawlLoop parseUrl site fuel
          { visited := st.visited, discoveredPaths := st.discoveredPaths,
            queue := rest, navLog := st.navLog }
      else
        let visited := st.visited ++ [currentPath]
        let navLog := st.navLog ++ [currentPath]
        match site currentPath with
        | .navFail =>
          c.crawlLoop parseUrl site fuel
            { visited := visited, discoveredPaths := st.discoveredPaths,
              queue := rest, navLog := navLog }
        | .extractFail =>
          c.crawlLoop parseUrl site fuel
            { visited := visited,
              discoveredPaths := st.discoveredPaths ++ [currentPath],
              queue := rest, navLog := navLog }
        | .ok links =>
          let newPaths :=
            (links.filterMap (fun link => c.normalizePath parseUrl link)).filter
              (fun p => p != "" && !(visited.contains p))
          c.crawlLoop parseUrl site fuel
            { visited := visited,
              discoveredPaths := st.discoveredPaths ++ [currentPath],
              queue := rest ++ newPaths, navLog := navLog }

/-- Final crawl state: the loop started from `queue = ["/"]` and empty sets. -/
def PageCrawler.crawlState (c : PageCrawler)
    (parseUrl : String → String → Except String ParsedURL)
    (site : String → PageResult) (fuel : Nat) : CrawlState :=
  c.crawlLoop parseUrl site fuel ⟨[], [], ["/"], []⟩

/-- `PageCrawler.crawl` returns `Array.from(this.discoveredPaths).sort()`:
the discovered set in insertion order, sorted ascending. -/
def PageCrawler.crawl (c : PageCrawler)
    (parseUrl : String → String → Except String ParsedURL)
    (site : String → PageResult) (fuel : Nat) : List String :=
  (c.crawlState parseUrl site fuel).discoveredPaths.mergeSort

/-- Loop invariant of the crawl: the navigation trace is exactly the
visited list, visited and discovered are duplicate-free, and every
discovered path has been visited. -/
def CrawlInv (st : CrawlState) : Prop :=
  st.navLog = st.visited ∧ st.visited.Nodup ∧ st.discoveredPaths.Nodup ∧
    ∀ p, p ∈ st.discoveredPaths → p ∈ st.visited

/-- `requestAttempts.get(url) || 0`: association-list model of the JS `Map`. -/
def amGet (m : List (String × Nat)) (k : String) : Option Nat :=
  (m.find? (fun e => e.1 == k)).map (fun e => e.2)

/-- `requestAttempts.set(url, v)`: replace the entry for `k` (order of
entries is never observed, so the updated entry is appended). -/
def amSet (m : List (String × Nat)) (k : String) (v : Nat) : List (String × Nat) :=
  m.filter (fun e => !(e.1 == k)) ++ [(k, v)]

/-- `requestAttempts.delete(url)`. -/
def amDel (m : List (String × Nat)) (k : String) : List (String × Nat) :=
  m.filter (fun e => !(e.1 == k))

/-- What the route handler does with an intercepted request. -/
inductive RouteDecision where
  | proceed
  | abortReq (reason : String)
  | proceedTracked
deriving Repr, DecidableEq

/-- The `maxAttempts` constant of `setupExternalResourceTimeout`. -/
def govMaxAttempts : Nat := 2

/--
State of one `setupExternalResourceTimeout` installation: the per-URL
attempt table, and the pending timers as `(request id, url)` pairs — one
entry per tracked in-flight request whose `setTimeout` timer has neither
fired nor been cancelled.
-/
structure GovState where
  requestAttempts : List (String × Nat)
  inflight : List (Nat × String)
deriving Repr, DecidableEq

/--
Asynchronous events of one governor installation.  `request id url` is
the route handler firing for a request; `completeOk id` is the tracked
request's `route.continue()` promise resolving (the `.then` branch:
cancel the timer, clear the counter); `completeErr id` is that promise
rejecting (the `.catch` branch: cancel the timer only); `timerFire id`
is the request's timeout timer firing first (abort as timed out; the
already-fired timer is no longer cancellable, and the counter is left
untouched).
-/
inductive GovEvent where
  | request (id : Nat) (url : String)
  | completeOk (id : Nat)
  | completeErr (id : Nat)
  | timerFire (id : Nat)

/--
One step of the governor (the `crawlConfig`-driven
`setupExternalResourceTimeout` of `generate-visual-baseline.ts` /
`generation.spec.ts`), returning the new state and, for events that
decide a request's fate, that decision.  The `request` case is the route
handler's cascade: same-origin and `data:` URLs proceed uninstrumented;
blacklisted-domain URLs abort `"blockedbyclient"`; whitelisted-domain
URLs proceed untracked; other URLs abort `"timedout"` at the attempt
ceiling, else increment the counter, start a timer and proceed tracked.
-/
def govStep (baseUrlParam : String) (crawlConfig : CrawlConfig)
    (st : GovState) (ev : GovEvent) : GovState × Option RouteDecision :=
  match ev with
  | .request id url =>
    if jsStartsWith url baseUrlParam || jsStartsWith url "data:" then
      (st, some .proceed)
    else if crawlConfig.blacklistedDomains.any (fun domain => jsIncludes url domain) then
      (st, some (.abortReq "blockedbyclient"))
    else if crawlConfig.whitelistedDomains.any (fun domain => jsIncludes url domain) then
      (st, some .proceed)
    else
      let attempts := (amGet st.requestAttempts url).getD 0
      if attempts ≥ govMaxAttempts then
        (st, some (.abortReq "timedout"))
      else
        ({ requestAttempts := amSet st.requestAttempts url (attempts + 1),
           inflight := st.inflight ++ [(id, url)] }, some .proceedTracked)
  | .completeOk id =>
    match st.inflight.find? (fun e => e.1 == id) with
    | some e =>
      ({ requestAttempts := amDel st.requestAttempts e.2,
         inflight := st.inflight.filter (fun f => !(f.1 == id)) }, none)
    | none => (st, none)
  | .completeErr id =>
    ({ st with inflight := st.inflight.filter (fun f => !(f.1 == id)) }, none)
  | .timerFire id =>
    match st.inflight.find? (fun e => e.1 == id) with
    | some _ =>
      ({ st with inflight := st.inflight.filter (fun f => !(f.1 == id)) },
       some (.abortReq "timedout"))
    | none => (st, none)

/-- Run one governor installation over an event trace, starting from the
empty attempt table and no pending timers. -/
def govRun (baseUrlParam : String) (crawlConfig : CrawlConfig)
    (evs : List GovEvent) : GovState :=
  evs.foldl (fun st ev => (govStep baseUrlParam crawlConfig st ev).1) ⟨[], []⟩

/-- A URL that falls through to the tracking branch of the handler:
neither same-origin, nor `data:`, nor blacklisted, nor whitelisted. -/
def isForeign (baseUrlParam : String) (crawlConfig : CrawlConfig) (url : String) : Bool :=
  !(jsStartsWith url baseUrlParam || jsStartsWith url "data:") &&
  !(crawlConfig.blacklistedDomains.any (fun domain => jsIncludes url domain)) &&
  !(crawlConfig.whitelistedDomains.any (fun domain => jsIncludes url domain))

/-- Governor invariant: every URL in the attempt table is foreign and
its counter never exceeds the ceiling of 2. -/
def GovInv (baseUrlParam : String) (crawlConfig : CrawlConfig) (st : GovState) : Prop :=
  ∀ k v, (k, v) ∈ st.requestAttempts →
    isForeign baseUrlParam crawlConfig k = true ∧ v ≤ 2

/-- Configuration used to exhibit a blacklist/whitelist overlap. -/
def c8Config : CrawlConfig :=
  { defaultConfig with blacklistedDomains := ["ads.example"] }

/-- A URL containing both a whitelisted and a blacklisted domain. -/
def c8Url : String := "https://ads.example/youtube.com/embed"

/-- `ViewportConfig` (validated viewport) from `viewport-config.ts`. -/
structure ViewportConfig where
  name : String
  width : Nat
  height : Nat
deriving Repr, DecidableEq

/-- `GenerationError` from `viewport-config.ts`; `stage` is `"load"` or
`"screenshot"`. -/
structure GenerationError where
  path : String
  viewport : String
  stage : String
  message : String
deriving Repr, DecidableEq

/-- `ScreenshotResult` from the generator module. -/
structure ScreenshotResult where
  path : String
  viewport : String
  filename : String
deriving Repr, DecidableEq

/-- `LoadStrategy`: the three progressive load policies. -/
inductive LoadStrategy where
  | normal
  | extra_timeout
  | brutal
deriving Repr, DecidableEq

/-- `StrategyConfig`: one strategy's navigation options. -/
structure StrategyConfig where
  timeout : Nat
  waitUntil : String
  externalTimeout : Option Nat := none
  maxRetries : Option Nat := none
  blockExternal : Bool := false
  forceProceed : Bool := false
deriving Repr, DecidableEq

/-- The `strategies` table of `ScreenshotGenerator.tryPageLoad`. -/
def strategies : LoadStrategy → StrategyConfig
  | .normal => { timeout := 30000, waitUntil := "networkidle" }
  | .extra_timeout =>
    { timeout := 30000, waitUntil := "networkidle",
      externalTimeout := some 20000, maxRetries := some 2 }
  | .brutal =>
    { timeout := 120000, waitUntil := "commit",
      blockExternal := true, forceProceed := true }

/--
`ScreenshotGenerator.tryPageLoad`: look up the strategy's options and
navigate.  `goto` abstracts `page.goto(url, options)` running under the
routing installed for that strategy (the governor when
`externalTimeout` is set, the block-all-external route when
`blockExternal` is set), hence it is a function of the full
`StrategyConfig`; an `error` is the navigation exception.  Under
`forceProceed` the navigation is wrapped in `try`/`catch` and the
function returns normally even when `goto` throws; otherwise the
exception propagates to the caller.
-/
def tryPageLoad (goto : StrategyConfig → Except String Unit)
    (strategy : LoadStrategy) : Except String Unit :=
  let strategyConfig := strategies strategy
  if strategyConfig.forceProceed then
    match goto strategyConfig with
    | .ok _ => .ok ()
    | .error _ => .ok ()
  else
    goto strategyConfig

/-- The `strategyList` of `generateScreenshots`. -/
def strategyList : List LoadStrategy := [.normal, .extra_timeout, .brutal]

/--
The `for (const strategy of strategyList)` loop of
`generateScreenshots` for one (viewport, path): try each strategy in
order, breaking on the first success; an exception at the last strategy
is recorded.  Returns `(loaded, strategies attempted in order, recorded
error message if any)`.
-/
def loadAttemptLoop (attempt : LoadStrategy → Except String Unit)
    (lastS : LoadStrategy) : List LoadStrategy → Bool × List LoadStrategy × Option String
  | [] => (false, [], none)
  | s :: rest =>
    match attempt s with
    | .ok _ => (true, [s], none)
    | .error e =>
      let r := loadAttemptLoop attempt lastS rest
      (r.1, s :: r.2.1, if s == lastS then some e else r.2.2)

/-- `getScreenshotFilename`: root maps to `homepage`, other paths have
slashes replaced by hyphens and one leading hyphen stripped. -/
def getScreenshotFilename (pagePath viewportName : String) : String :=
  let safePath :=
    if pagePath == "/" then "homepage"
    else jsStripLeadingDash (jsSlashToDash pagePath)
  viewportName ++ "-" ++ safePath ++ ".png"

/--
One (viewport, path) iteration of `generateScreenshots`: run the
strategy loop (`attempt v p s` abstracts the whole per-strategy `try`
block — close the previous page, open a fresh one, `tryPageLoad`); on
total failure record the `"load"` error and skip the screenshot; on
success take the screenshot (`shot` abstracts `hideElements` — which
swallows its own exceptions — followed by `page.screenshot`), recording
a `"screenshot"` error on failure.  Returns the results and errors this
iteration appends.
-/
def processPath (attempt : ViewportConfig → String → LoadStrategy → Except String Unit)
    (shot : ViewportConfig → String → Except String Unit)
    (viewport : ViewportConfig) (pagePath : String) :
    List ScreenshotResult × List GenerationError :=
  let r := loadAttemptLoop (attempt viewport pagePath) .brutal strategyList
  let loadErrs : List GenerationError :=
    match r.2.2 with
    | some e => [⟨pagePath, viewport.name, "load", e⟩]
    | none => []
  if !r.1 then
    ([], loadErrs)
  else
    match shot viewport pagePath with
    | .ok _ =>
      ([⟨pagePath, viewport.name, getScreenshotFilename pagePath viewport.name⟩],
       loadErrs)
    | .error e =>
      ([], loadErrs ++ [⟨pagePath, viewport.name, "screenshot", e⟩])

/--
`ScreenshotGenerator.generateScreenshots`: for each viewport, for each
path, run `processPath`, accumulating the pushed results and errors in
order.
-/
def generateScreenshots
    (attempt : ViewportConfig → String → LoadStrategy → Except String Unit)
    (shot : ViewportConfig → String → Except String Unit)
    (viewports : List ViewportConfig) (paths : List String) :
    List ScreenshotResult × List GenerationError :=
  viewports.foldl (fun acc viewport =>
    paths.foldl (fun acc2 pagePath =>
      (acc2.1 ++ (processPath attempt shot viewport pagePath).1,
       acc2.2 ++ (processPath attempt shot viewport pagePath).2)) acc) ([], [])

/-- The `metadata` summary of the manifest. -/
structure ManifestMetadata where
  totalPaths : Nat
  totalScreenshots : Nat
  totalErrors : Nat
  viewports : List String
deriving Repr, DecidableEq

/-- The `crawlerConfig` snapshot embedded in the manifest. -/
structure ManifestCrawlerConfig where
  timeout : Nat
  ignoreQueryParams : Bool
  blacklistPatterns : List String
  hideSelectors : List String
  maskSelectors : List String
  whitelistedDomains : List String
  blacklistedDomains : List String
deriving Repr, DecidableEq

/-- `ManifestData` from `viewport-config.ts`. -/
structure ManifestData where
  version : String
  generatedAt : String
  baseUrl : String
  crawlerConfig : ManifestCrawlerConfig
  paths : List String
  viewports : List ViewportConfig
  errors : List GenerationError
  metadata : ManifestMetadata
deriving Repr, DecidableEq

/--
`ManifestWriter.write` (the module variant taking a screenshot count):
the pure manifest value serialized to disk.  `generatedAt` (the wall
clock `new Date().toISOString()`) is passed in.
-/
def ManifestWriter.write (generatedAt baseUrl : String) (config : CrawlConfig)
    (viewports : List ViewportConfig) (paths : List String)
    (screenshotCount : Nat) (errors : List GenerationError) : ManifestData :=
  { version := "1.0"
    generatedAt := generatedAt
    baseUrl := baseUrl
    crawlerConfig :=
      { timeout := config.timeout
        ignoreQueryParams := config.ignoreQueryParams
        blacklistPatterns := config.blacklistPatterns
        hideSelectors := config.hideSelectors
        maskSelectors := config.maskSelectors
        whitelistedDomains := config.whitelistedDomains
        blacklistedDomains := config.blacklistedDomains }
    paths := paths
    viewports := viewports
    errors := errors
    metadata :=
      { totalPaths := paths.length
        totalScreenshots := screenshotCount
        totalErrors := errors.length
        viewports := viewports.map (fun v => v.name) } }

/--
The post-capture scan of `generateBaseline`: for each viewport and
discovered path, count the expected baseline file if it was generated,
else record a `"screenshot"` generation error.  `generatedFiles`
abstracts the directory listing of `.png` files.
-/
def scanGeneratedBaselines (viewports : List ViewportConfig)
    (discoveredPaths : List String) (generatedFiles : List String) :
    Nat × List GenerationError :=
  viewports.foldl (fun acc viewport =>
    discoveredPaths.foldl (fun acc2 pagePath =>
      if generatedFiles.contains (getScreenshotFilename pagePath viewport.name) then
        (acc2.1 + 1, acc2.2)
      else
        (acc2.1, acc2.2 ++
          [⟨pagePath, viewport.name, "screenshot",
            "Baseline not generated (toHaveScreenshot failed or timed out)"⟩])) acc)
    (0, [])

/--
The two manifest writes of `generateBaseline`: the first immediately
after discovery with a zero screenshot count and no errors, the second
after capture with the scanned count and error ledger.  `t1`/`t2` are
the two write timestamps.
-/
def generateBaselineManifests (t1 t2 baseUrl : String) (config : CrawlConfig)
    (viewports : List ViewportConfig) (discoveredPaths : List String)
    (generatedFiles : List String) : ManifestData × ManifestData :=
  let firstWrite := ManifestWriter.write t1 baseUrl config viewports discoveredPaths 0 []
  let scan := scanGeneratedBaselines viewports discoveredPaths generatedFiles
  let secondWrite :=
    ManifestWriter.write t2 baseUrl config viewports discoveredPaths scan.1 scan.2
  (firstWrite, secondWrite)

/--
Claim C1: for every raw hyperlink whose resolution against the base
origin yields an absolute URL outside the base origin (the resolved
`href` does not start with the base URL string, which is the boundary
the code and the spec both use), `normalizePath` returns rejection
(`none`).
-/
theorem C1_out_of_origin_rejected
    (c : PageCrawler) (parseUrl : String → String → Except String ParsedURL)
    (url : String) (parsed : ParsedURL)
    (hparse : parseUrl url c.baseUrl = .ok parsed)
    (hout : jsStartsWith parsed.href c.baseUrl = false) :
    c.normalizePath parseUrl url = none := by
  unfold PageCrawler.normalizePath PageCrawler.normalizePathBody
  rw [hparse]
  simp [hout]

/-- Concrete instance of `C1_out_of_origin_rejected`. -/
theorem C1_out_of_origin_rejected_witness :
    (PageCrawler.mk "https://site.example" defaultConfig).normalizePath
      (fun _ _ => .ok ⟨"https://other.example/x", "/x", ""⟩)
      "https://other.example/x" = none :=
  C1_out_of_origin_rejected _ _ _ ⟨"https://other.example/x", "/x", ""⟩ rfl (by decide)

/--
Claim C9: `normalizePath` is total — the embedding returns an `Option`
on every input, every exception of the body is caught (an `error` body
outcome yields `none`), and in particular a malformed URL (a parse
exception) yields `none`.
-/
theorem C9_normalizePath_total
    (c : PageCrawler) (parseUrl : String → String → Except String ParsedURL)
    (url : String) :
    (∀ e, c.normalizePathBody parseUrl url = .error e →
      c.normalizePath parseUrl url = none) ∧
    (∀ e, parseUrl url c.baseUrl = .error e →
      c.normalizePath parseUrl url = none) ∧
    (c.normalizePath parseUrl url = none ∨
      ∃ s, c.normalizePath parseUrl url = some s) := by
  refine ⟨?_, ?_, ?_⟩
  · intro e he
    unfold PageCrawler.normalizePath
    rw [he]
  · intro e he
    unfold PageCrawler.normalizePath PageCrawler.normalizePathBody
    rw [he]
  · cases h : c.normalizePath parseUrl url with
    | none => exact Or.inl rfl
    | some s => exact Or.inr ⟨s, rfl⟩

/-- Concrete instance of `C9_normalizePath_total`: a malformed URL rejects. -/
theorem C9_normalizePath_total_witness :
    (PageCrawler.mk "https://localhost" defaultConfig).normalizePath
      (fun _ _ => .error "Invalid URL") "http://[malformed" = none :=
  (C9_normalizePath_total (PageCrawler.mk "https://localhost" defaultConfig)
    (fun _ _ => .error "Invalid URL") "http://[malformed").2.1 "Invalid URL" rfl

/--
Claim C7: with exclusion list `["/admin/*"]`, `isBlacklisted` rejects
`"/admin/x"` and every sub-path of `"/admin"` (every path extending
`"/admin/"`); with exclusion list `["/admin"]` it rejects exactly the
identical path `"/admin"` and no other path.
-/
theorem C7_wildcard_vs_exact_patterns :
    adminWildcardCrawler.isBlacklisted "/admin/x" = true ∧
    (∀ p : String, jsStartsWith p "/admin/" = true →
      adminWildcardCrawler.isBlacklisted p = true) ∧
    adminExactCrawler.isBlacklisted "/admin" = true ∧
    (∀ p : String, p ≠ "/admin" → adminExactCrawler.isBlacklisted p = false) := by
  refine ⟨by decide, ?_, by decide, ?_⟩
  · intro p hp
    have hsub : ("/admin".data).IsPrefix ("/admin/".data) := by
      have : "/admin".data.isPrefixOf "/admin/".data = true := by decide
      exact List.isPrefixOf_iff_prefix.mp this
    have hp' : ("/admin/".data).IsPrefix p.data := by
      simpa [jsStartsWith] using hp
    have : jsStartsWith p "/admin" = true := by
      simp only [jsStartsWith, List.isPrefixOf_iff_prefix]
      exact hsub.trans hp'
    simp only [PageCrawler.isBlacklisted, adminWildcardCrawler, List.any_cons,
      List.any_nil, Bool.or_false]
    rw [if_pos (by decide)]
    convert this using 2
  · intro p hp
    simp only [PageCrawler.isBlacklisted, adminExactCrawler, List.any_cons,
      List.any_nil, Bool.or_false]
    rw [if_neg (by decide)]
    simpa using hp

/-- Concrete instance of `C7_wildcard_vs_exact_patterns`. -/
theorem C7_wildcard_vs_exact_patterns_witness :
    adminWildcardCrawler.isBlacklisted "/admin/sub/leaf" = true ∧
    adminExactCrawler.isBlacklisted "/admin/x" = false :=
  ⟨C7_wildcard_vs_exact_patterns.2.1 "/admin/sub/leaf" (by decide),
   C7_wildcard_vs_exact_patterns.2.2.2 "/admin/x" (by decide)⟩

/--
Claim C10: a pattern ending in `/*` matches by bare string prefix, so it
rejects any path that merely begins with the pattern minus `"/*"` —
including the bare prefix itself (`"/admin"`) and unrelated sibling
paths such as `"/administrator"`.
-/
theorem C10_wildcard_prefix_overreach :
    (∀ (c : PageCrawler) (pattern urlPath : String),
        c.config.blacklistPatterns = [pattern] →
        jsEndsWith pattern "/*" = true →
        jsStartsWith urlPath (jsSliceToNeg pattern 2) = true →
        c.isBlacklisted urlPath = true) ∧
    adminWildcardCrawler.isBlacklisted "/admin" = true ∧
    adminWildcardCrawler.isBlacklisted "/administrator" = true := by
  refine ⟨?_, by decide, by decide⟩
  intro c pattern urlPath hpats hends hstarts
  simp only [PageCrawler.isBlacklisted, hpats, List.any_cons, List.any_nil,
    Bool.or_false]
  rw [if_pos hends]
  exact hstarts

/-- Concrete instance of `C10_wildcard_prefix_overreach`. -/
theorem C10_wildcard_prefix_overreach_witness :
    (PageCrawler.mk "https://localhost"
      { defaultConfig with blacklistPatterns := ["/blog/*"] }).isBlacklisted
      "/blogging-tips" = true :=
  C10_wildcard_prefix_overreach.1
    (PageCrawler.mk "https://localhost"
      { defaultConfig with blacklistPatterns := ["/blog/*"] })
    "/blog/*" "/blogging-tips" rfl (by decide) (by decide)

/-- The crawl loop preserves `CrawlInv` for any amount of fuel. -/
theorem crawlLoop_inv (c : PageCrawler)
    (parseUrl : String → String → Except String ParsedURL)
    (site : String → PageResult) (fuel : Nat) :
    ∀ st : CrawlState, CrawlInv st → CrawlInv (c.crawlLoop parseUrl site fuel st) := by
  induction fuel with
  | zero =>
    intro st h
    simpa [PageCrawler.crawlLoop] using h
  | succ n ih =>
    intro st h
    obtain ⟨hnav, hvis, hdis, hsub⟩ := h
    rw [PageCrawler.crawlLoop]
    cases hq : st.queue with
    | nil => exact ⟨hnav, hvis, hdis, hsub⟩
    | cons currentPath rest =>
      dsimp only
      by_cases hc : st.visited.contains currentPath = true
      · rw [if_pos hc]
        exact ih _ ⟨hnav, hvis, hdis, hsub⟩
      · rw [if_neg hc]
        have hmem : currentPath ∉ st.visited := by
          simpa using hc
        have hvis' : (st.visited ++ [currentPath]).Nodup := by
          simp [List.nodup_append, hvis, hmem]
        have hnav' : st.navLog ++ [currentPath] = st.visited ++ [currentPath] := by
          rw [hnav]
        have hdismem : currentPath ∉ st.discoveredPaths := fun hin => hmem (hsub _ hin)
        have hdis' : (st.discoveredPaths ++ [currentPath]).Nodup := by
          simp [List.nodup_append, hdis, hdismem]
        have hsub' : ∀ p, p ∈ st.discoveredPaths ++ [currentPath] →
            p ∈ st.visited ++ [currentPath] := by
          intro p hp
          rcases List.mem_append.mp hp with hp | hp
          · exact List.mem_append.mpr (Or.inl (hsub _ hp))
          · exact List.mem_append.mpr (Or.inr hp)
        cases site currentPath with
        | navFail =>
          refine ih _ ⟨hnav', hvis', hdis, ?_⟩
          intro p hp
          exact List.mem_append.mpr (Or.inl (hsub _ hp))
        | extractFail => exact ih _ ⟨hnav', hvis', hdis', hsub'⟩
        | ok links => exact ih _ ⟨hnav', hvis', hdis', hsub'⟩

/--
Claim C2: within one crawl the crawler never navigates to the same path
twice (the navigation trace is duplicate-free), and the returned list
has no duplicate paths and is sorted lexicographically ascending.
-/
theorem C2_crawl_no_revisit_nodup_sorted (c : PageCrawler)
    (parseUrl : String → String → Except String ParsedURL)
    (site : String → PageResult) (fuel : Nat) :
    (c.crawlState parseUrl site fuel).navLog.Nodup ∧
    (c.crawl parseUrl site fuel).Nodup ∧
    List.Sorted (· ≤ ·) (c.crawl parseUrl site fuel) := by
  obtain ⟨hnav, hvis, hdis, -⟩ :=
    crawlLoop_inv c parseUrl site fuel ⟨[], [], ["/"], []⟩
      ⟨rfl, by simp, by simp, by simp⟩
  refine ⟨hnav ▸ hvis, ?_, ?_⟩
  · exact ((List.mergeSort_perm _ _).nodup_iff).mpr hdis
  · exact List.sorted_mergeSort' _

/-- A successful attempt-table lookup exhibits a table entry. -/
theorem amGet_eq_some_mem {m : List (String × Nat)} {k : String} {v : Nat}
    (h : amGet m k = some v) : (k, v) ∈ m := by
  unfold amGet at h
  cases hf : m.find? (fun e => e.1 == k) with
  | none => rw [hf] at h; simp at h
  | some e =>
    rw [hf] at h
    have hmem := List.mem_of_find?_eq_some hf
    have hpred := List.find?_some hf
    obtain ⟨k', v'⟩ := e
    simp at h hpred
    subst hpred
    subst h
    exact hmem

/-- Deleting a URL's entry makes its lookup fail. -/
theorem amGet_amDel (m : List (String × Nat)) (k : String) :
    amGet (amDel m k) k = none := by
  have hf : (amDel m k).find? (fun e => e.1 == k) = none := by
    rw [List.find?_eq_none]
    intro x hx
    simpa using (List.mem_filter.mp hx).2
  simp [amGet, hf]

/-- Setting a URL's counter makes its lookup return exactly that value. -/
theorem amGet_amSet_self (m : List (String × Nat)) (k : String) (v : Nat) :
    amGet (amSet m k v) k = some v := by
  have hf : (m.filter (fun e => !(e.1 == k))).find? (fun e => e.1 == k) = none := by
    rw [List.find?_eq_none]
    intro x hx
    simpa using (List.mem_filter.mp hx).2
  simp [amGet, amSet, List.find?_append, hf]

/-- After filtering a timer id out of the pending set, no pending timer
with that id remains. -/
theorem inflight_filter_find?_none (l : List (Nat × String)) (id : Nat) :
    (l.filter (fun f => !(f.1 == id))).find? (fun e => e.1 == id) = none := by
  rw [List.find?_eq_none]
  intro x hx
  simpa using (List.mem_filter.mp hx).2

/-- A foreign URL's request falls through every early branch of the
handler: only the attempt-ceiling test decides it. -/
theorem govStep_request_foreign (b : String) (cfg : CrawlConfig) (st : GovState)
    (id : Nat) (url : String) (hforeign : isForeign b cfg url = true) :
    govStep b cfg st (.request id url) =
      (if (amGet st.requestAttempts url).getD 0 ≥ govMaxAttempts then
        (st, some (.abortReq "timedout"))
       else
        ({ requestAttempts :=
            amSet st.requestAttempts url ((amGet st.requestAttempts url).getD 0 + 1),
           inflight := st.inflight ++ [(id, url)] }, some .proceedTracked)) := by
  unfold isForeign at hforeign
  rw [Bool.and_eq_true, Bool.and_eq_true] at hforeign
  obtain ⟨⟨hx, hy⟩, hz⟩ := hforeign
  simp only [Bool.not_eq_true'] at hx hy hz
  simp only [govStep]
  rw [if_neg (by simp [hx]), if_neg (by simp [hy]), if_neg (by simp [hz])]

/-- Every governor step preserves the attempt-table invariant. -/
theorem govStep_inv (b : String) (cfg : CrawlConfig) (st : GovState) (ev : GovEvent)
    (h : GovInv b cfg st) : GovInv b cfg (govStep b cfg st ev).1 := by
  cases ev with
  | request id url =>
    simp only [govStep]
    split_ifs with h1 h2 h3 h4
    · exact h
    · exact h
    · exact h
    · exact h
    · intro k v hkv
      rcases List.mem_append.mp hkv with hkv | hkv
      · exact h k v (List.mem_filter.mp hkv).1
      · have hk : k = url ∧ v = (amGet st.requestAttempts url).getD 0 + 1 := by
          simpa using hkv
        obtain ⟨rfl, rfl⟩ := hk
        rw [Bool.not_eq_true] at h1 h2 h3
        refine ⟨by simp [isForeign, h1, h2, h3], ?_⟩
        simp only [govMaxAttempts] at h4
        omega
  | completeOk id =>
    simp only [govStep]
    cases hf : st.inflight.find? (fun e => e.1 == id) with
    | none => exact h
    | some e =>
      intro k v hkv
      exact h k v (List.mem_filter.mp hkv).1
  | completeErr id => exact h
  | timerFire id =>
    simp only [govStep]
    cases hf : st.inflight.find? (fun e => e.1 == id) with
    | none => exact h
    | some e => exact h

/-- Every state reachable within one governor installation satisfies the
attempt-table invariant. -/
theorem govRun_inv (b : String) (cfg : CrawlConfig) (evs : List GovEvent) :
    GovInv b cfg (govRun b cfg evs) := by
  unfold govRun
  have main : ∀ st : GovState, GovInv b cfg st →
      GovInv b cfg (evs.foldl (fun st ev => (govStep b cfg st ev).1) st) := by
    induction evs with
    | nil => intro st h; exact h
    | cons e es ih =>
      intro st h
      exact ih _ (govStep_inv b cfg st e h)
  exact main ⟨[], []⟩ (by intro k v hkv; simp at hkv)

/--
Claim C3: within one governor installation, (a) a request to a URL whose
attempt counter has reached the ceiling of 2 is aborted as `"timedout"`
with the state (in particular the counter) unchanged; and (b) when a
tracked request completes before its timer fires, the timer is cancelled
and the URL's counter is cleared, so a later identical (still foreign)
request proceeds tracked again with a fresh counter of 1.
-/
theorem C3_attempt_ceiling_and_completion_reset
    (b : String) (cfg : CrawlConfig) :
    (∀ (evs : List GovEvent) (id : Nat) (url : String) (a : Nat),
      amGet (govRun b cfg evs).requestAttempts url = some a →
      2 ≤ a →
      govStep b cfg (govRun b cfg evs) (.request id url) =
        (govRun b cfg evs, some (.abortReq "timedout"))) ∧
    (∀ (st : GovState) (id : Nat) (url : String),
      st.inflight.find? (fun e => e.1 == id) = some (id, url) →
      ((govStep b cfg st (.completeOk id)).1.inflight.find?
          (fun e => e.1 == id) = none) ∧
      amGet (govStep b cfg st (.completeOk id)).1.requestAttempts url = none ∧
      (∀ id2 : Nat, isForeign b cfg url = true →
        (govStep b cfg ((govStep b cfg st (.completeOk id)).1) (.request id2 url)).2 =
          some .proceedTracked ∧
        amGet ((govStep b cfg ((govStep b cfg st (.completeOk id)).1)
            (.request id2 url)).1).requestAttempts url = some 1)) := by
  constructor
  · intro evs id url a hsome ha
    have hmem := amGet_eq_some_mem hsome
    have hforeign := (govRun_inv b cfg evs url a hmem).1
    rw [govStep_request_foreign b cfg _ id url hforeign]
    rw [if_pos (by simp only [hsome, Option.getD_some, govMaxAttempts]; omega)]
  · intro st id url hfind
    have hstep : (govStep b cfg st (.completeOk id)).1 =
        ⟨amDel st.requestAttempts url, st.inflight.filter (fun f => !(f.1 == id))⟩ := by
      simp only [govStep, hfind]
    rw [hstep]
    refine ⟨inflight_filter_find?_none _ _, amGet_amDel _ _, ?_⟩
    intro id2 hforeign
    rw [govStep_request_foreign b cfg _ id2 url hforeign]
    rw [if_neg (by simp [amGet_amDel, govMaxAttempts])]
    refine ⟨rfl, ?_⟩
    simp only [amGet_amDel, Option.getD_none]
    exact amGet_amSet_self _ _ _

/-- Concrete instance of `C3_attempt_ceiling_and_completion_reset`: after
two timed-out attempts the third identical request is insta-aborted, and
a completion before the timer clears the counter for a fresh start. -/
theorem C3_attempt_ceiling_and_completion_reset_witness :
    (govStep "https://localhost" defaultConfig
        (govRun "https://localhost" defaultConfig
          [.request 0 "https://ext/s.js", .timerFire 0,
           .request 1 "https://ext/s.js", .timerFire 1])
        (.request 2 "https://ext/s.js") =
      (govRun "https://localhost" defaultConfig
          [.request 0 "https://ext/s.js", .timerFire 0,
           .request 1 "https://ext/s.js", .timerFire 1],
       some (.abortReq "timedout"))) ∧
    ((govStep "https://localhost" defaultConfig
        ⟨[("https://ext/s.js", 1)], [(5, "https://ext/s.js")]⟩
        (.completeOk 5)).1.inflight.find? (fun e => e.1 == 5) = none) ∧
    (amGet (govStep "https://localhost" defaultConfig
        ⟨[("https://ext/s.js", 1)], [(5, "https://ext/s.js")]⟩
        (.completeOk 5)).1.requestAttempts "https://ext/s.js" = none) ∧
    ((govStep "https://localhost" defaultConfig
        ((govStep "https://localhost" defaultConfig
          ⟨[("https://ext/s.js", 1)], [(5, "https://ext/s.js")]⟩
          (.completeOk 5)).1)
        (.request 7 "https://ext/s.js")).2 = some .proceedTracked) ∧
    (amGet ((govStep "https://localhost" defaultConfig
        ((govStep "https://localhost" defaultConfig
          ⟨[("https://ext/s.js", 1)], [(5, "https://ext/s.js")]⟩
          (.completeOk 5)).1)
        (.request 7 "https://ext/s.js")).1).requestAttempts
      "https://ext/s.js" = some 1) :=
  ⟨(C3_attempt_ceiling_and_completion_reset "https://localhost" defaultConfig).1
      [.request 0 "https://ext/s.js", .timerFire 0,
       .request 1 "https://ext/s.js", .timerFire 1]
      2 "https://ext/s.js" 2 (by decide) (by decide),
   ((C3_attempt_ceiling_and_completion_reset "https://localhost" defaultConfig).2
      ⟨[("https://ext/s.js", 1)], [(5, "https://ext/s.js")]⟩
      5 "https://ext/s.js" (by decide)).1,
   ((C3_attempt_ceiling_and_completion_reset "https://localhost" defaultConfig).2
      ⟨[("https://ext/s.js", 1)], [(5, "https://ext/s.js")]⟩
      5 "https://ext/s.js" (by decide)).2.1,
   (((C3_attempt_ceiling_and_completion_reset "https://localhost" defaultConfig).2
      ⟨[("https://ext/s.js", 1)], [(5, "https://ext/s.js")]⟩
      5 "https://ext/s.js" (by decide)).2.2 7 (by decide)).1,
   (((C3_attempt_ceiling_and_completion_reset "https://localhost" defaultConfig).2
      ⟨[("https://ext/s.js", 1)], [(5, "https://ext/s.js")]⟩
      5 "https://ext/s.js" (by decide)).2.2 7 (by decide)).2⟩

/--
Claim C8 is false as stated: a request whose URL contains a whitelisted
domain is nevertheless aborted (`"blockedbyclient"`) when the URL also
contains a blacklisted domain, because the handler checks the blacklist
before the whitelist.
-/
theorem C8_whitelist_counterexample :
    jsIncludes c8Url "youtube.com" = true ∧
    "youtube.com" ∈ c8Config.whitelistedDomains ∧
    (govStep "https://localhost" c8Config ⟨[], []⟩ (.request 0 c8Url)).2 =
      some (.abortReq "blockedbyclient") ∧
    (govStep "https://localhost" c8Config ⟨[], []⟩ (.request 0 c8Url)).2 ≠
      some RouteDecision.proceed :=
  ⟨by decide, by decide, by decide, by decide⟩

/--
Claim C8, amended: for every request whose URL contains a whitelisted
domain and contains no blacklisted domain, the governor lets the request
proceed and never aborts it, regardless of the attempt count recorded
for that URL — the decision is `proceed` and the state (attempt table
and pending timers) is untouched, so no timer can abort it later.
-/
theorem C8_whitelist_bypass_amended (b : String) (cfg : CrawlConfig)
    (st : GovState) (id : Nat) (url : String)
    (hwl : cfg.whitelistedDomains.any (fun domain => jsIncludes url domain) = true)
    (hbl : cfg.blacklistedDomains.any (fun domain => jsIncludes url domain) = false) :
    govStep b cfg st (.request id url) = (st, some .proceed) := by
  simp only [govStep]
  by_cases h1 : (jsStartsWith url b || jsStartsWith url "data:") = true
  · rw [if_pos h1]
  · rw [if_neg h1, if_neg (by simp [hbl]), if_pos (by simp [hwl])]

/-- Concrete instance of `C8_whitelist_bypass_amended`: a youtube.com
request proceeds even with its attempt counter already at the ceiling. -/
theorem C8_whitelist_bypass_amended_witness :
    govStep "https://localhost" defaultConfig
        ⟨[("https://www.youtube.com/embed/x", 2)], []⟩
        (.request 4 "https://www.youtube.com/embed/x") =
      (⟨[("https://www.youtube.com/embed/x", 2)], []⟩, some .proceed) :=
  C8_whitelist_bypass_amended "https://localhost" defaultConfig
    ⟨[("https://www.youtube.com/embed/x", 2)], []⟩ 4
    "https://www.youtube.com/embed/x" (by decide) (by decide)

/--
Claim C6: the manifest is written twice per run; the write immediately
after discovery has an empty `errors` list and
`metadata.totalScreenshots = 0`, and the rewrite after capture has
`metadata.totalErrors` equal to the length of its `errors` list and
`metadata.totalPaths` equal to the length of its `paths` list.
-/
theorem C6_two_phase_manifest (t1 t2 baseUrl : String) (config : CrawlConfig)
    (viewports : List ViewportConfig) (discoveredPaths : List String)
    (generatedFiles : List String) :
    (generateBaselineManifests t1 t2 baseUrl config viewports discoveredPaths
        generatedFiles).1.errors = [] ∧
    (generateBaselineManifests t1 t2 baseUrl config viewports discoveredPaths
        generatedFiles).1.metadata.totalScreenshots = 0 ∧
    (generateBaselineManifests t1 t2 baseUrl config viewports discoveredPaths
        generatedFiles).2.metadata.totalErrors =
      (generateBaselineManifests t1 t2 baseUrl config viewports discoveredPaths
        generatedFiles).2.errors.length ∧
    (generateBaselineManifests t1 t2 baseUrl config viewports discoveredPaths
        generatedFiles).2.metadata.totalPaths =
      (generateBaselineManifests t1 t2 baseUrl config viewports discoveredPaths
        generatedFiles).2.paths.length :=
  ⟨rfl, rfl, rfl, rfl⟩

/--
Claim C4: when the `normal` strategy's navigation throws and the
`extra_timeout` strategy's navigation throws, the `brutal` strategy is
still attempted; and `tryPageLoad` under `brutal` returns normally even
when its own navigation throws, so the per-path loop ends with the page
counted as loaded instead of propagating the exception.
-/
theorem C4_brutal_forced_proceed
    (goto : StrategyConfig → Except String Unit) (e1 e2 : String)
    (h1 : goto (strategies .normal) = .error e1)
    (h2 : goto (strategies .extra_timeout) = .error e2) :
    (loadAttemptLoop (tryPageLoad goto) .brutal strategyList).2.1 =
      [.normal, .extra_timeout, .brutal] ∧
    tryPageLoad goto .brutal = .ok () ∧
    (loadAttemptLoop (tryPageLoad goto) .brutal strategyList).1 = true := by
  have hn : tryPageLoad goto .normal = .error e1 := h1
  have he : tryPageLoad goto .extra_timeout = .error e2 := h2
  have hb : tryPageLoad goto .brutal = .ok () := by
    unfold tryPageLoad
    cases h : goto (strategies .brutal) with
    | ok a =>
      simp only [strategies] at h
      simp [strategies, h]
    | error e =>
      simp only [strategies] at h
      simp [strategies, h]
  have hloop : loadAttemptLoop (tryPageLoad goto) .brutal strategyList =
      (true, [.normal, .extra_timeout, .brutal], none) := by
    simp [strategyList, loadAttemptLoop, hn, he, hb]
  rw [hloop]
  exact ⟨rfl, hb, rfl⟩

/-- Concrete instance of `C4_brutal_forced_proceed`: every navigation
throws, yet the loop loads via `brutal`. -/
theorem C4_brutal_forced_proceed_witness :
    (loadAttemptLoop (tryPageLoad (fun _ => .error "net::ERR_TIMED_OUT"))
        .brutal strategyList).2.1 = [.normal, .extra_timeout, .brutal] ∧
    tryPageLoad (fun _ => .error "net::ERR_TIMED_OUT") .brutal = .ok () ∧
    (loadAttemptLoop (tryPageLoad (fun _ => .error "net::ERR_TIMED_OUT"))
        .brutal strategyList).1 = true :=
  C4_brutal_forced_proceed (fun _ => .error "net::ERR_TIMED_OUT")
    "net::ERR_TIMED_OUT" "net::ERR_TIMED_OUT" rfl rfl

/-- If the strategy loop loaded the page, it recorded no error message. -/
theorem loadAttemptLoop_loaded_none (attempt : LoadStrategy → Except String Unit) :
    (loadAttemptLoop attempt .brutal strategyList).1 = true →
    (loadAttemptLoop attempt .brutal strategyList).2.2 = none := by
  cases h1 : attempt .normal <;> cases h2 : attempt .extra_timeout <;>
    cases h3 : attempt .brutal <;>
      simp [strategyList, loadAttemptLoop, h1, h2, h3]

/-- When every strategy fails, the loop ends unloaded having attempted
all three strategies and recorded the final strategy's exception. -/
theorem loadAttemptLoop_allfail (attempt : LoadStrategy → Except String Unit)
    (e1 e2 e3 : String) (h1 : attempt .normal = .error e1)
    (h2 : attempt .extra_timeout = .error e2) (h3 : attempt .brutal = .error e3) :
    loadAttemptLoop attempt .brutal strategyList =
      (false, [.normal, .extra_timeout, .brutal], some e3) := by
  simp [strategyList, loadAttemptLoop, h1, h2, h3]

/-- All-fail iteration: no screenshot result, exactly the one load error. -/
theorem processPath_allfail
    (attempt : ViewportConfig → String → LoadStrategy → Except String Unit)
    (shot : ViewportConfig → String → Except String Unit)
    (v : ViewportConfig) (p : String) (e1 e2 e3 : String)
    (h1 : attempt v p .normal = .error e1)
    (h2 : attempt v p .extra_timeout = .error e2)
    (h3 : attempt v p .brutal = .error e3) :
    processPath attempt shot v p = ([], [⟨p, v.name, "load", e3⟩]) := by
  unfold processPath
  rw [loadAttemptLoop_allfail (attempt v p) e1 e2 e3 h1 h2 h3]
  rfl

/-- Every error an iteration appends carries that iteration's path and
viewport name. -/
theorem processPath_error_fields
    (attempt : ViewportConfig → String → LoadStrategy → Except String Unit)
    (shot : ViewportConfig → String → Except String Unit)
    (v : ViewportConfig) (p : String) :
    ∀ er ∈ (processPath attempt shot v p).2, er.path = p ∧ er.viewport = v.name := by
  unfold processPath
  rcases (loadAttemptLoop (attempt v p) .brutal strategyList) with ⟨loaded, att, errMsg⟩
  cases errMsg <;> cases loaded <;> cases hs : shot v p <;> simp [hs]

/-- Every screenshot result an iteration appends carries that
iteration's path and viewport name. -/
theorem processPath_result_fields
    (attempt : ViewportConfig → String → LoadStrategy → Except String Unit)
    (shot : ViewportConfig → String → Except String Unit)
    (v : ViewportConfig) (p : String) :
    ∀ r ∈ (processPath attempt shot v p).1, r.path = p ∧ r.viewport = v.name := by
  unfold processPath
  rcases (loadAttemptLoop (attempt v p) .brutal strategyList) with ⟨loaded, att, errMsg⟩
  cases errMsg <;> cases loaded <;> cases hs : shot v p <;> simp [hs]

/-- One iteration appends at most one error: a load error precludes the
screenshot attempt, and a loaded page recorded no load error. -/
theorem processPath_errors_length
    (attempt : ViewportConfig → String → LoadStrategy → Except String Unit)
    (shot : ViewportConfig → String → Except String Unit)
    (v : ViewportConfig) (p : String) :
    ((processPath attempt shot v p).2).length ≤ 1 := by
  unfold processPath
  have hln := loadAttemptLoop_loaded_none (attempt v p)
  rcases hr : (loadAttemptLoop (attempt v p) .brutal strategyList) with ⟨loaded, att, errMsg⟩
  rw [hr] at hln
  cases loaded with
  | false => cases errMsg <;> cases hs : shot v p <;> simp [hs]
  | true =>
    have hnone : errMsg = none := hln rfl
    subst hnone
    cases hs : shot v p <;> simp [hs]

/-- Nested-push fold as a pair of `flatMap`s. -/
theorem foldl_accumulate2 {α β γ : Type} (fb : α → List β) (fc : α → List γ) :
    ∀ (l : List α) (acc : List β × List γ),
      l.foldl (fun a x => (a.1 ++ fb x, a.2 ++ fc x)) acc =
        (acc.1 ++ l.flatMap fb, acc.2 ++ l.flatMap fc) := by
  intro l
  induction l with
  | nil => intro acc; simp
  | cons x xs ih =>
    intro acc
    rw [List.foldl_cons, ih]
    simp

/-- `generateScreenshots` in closed form: the concatenation, in
iteration order, of the per-(viewport, path) results and errors. -/
theorem generateScreenshots_eq
    (attempt : ViewportConfig → String → LoadStrategy → Except String Unit)
    (shot : ViewportConfig → String → Except String Unit)
    (viewports : List ViewportConfig) (paths : List String) :
    generateScreenshots attempt shot viewports paths =
      (viewports.flatMap (fun v => paths.flatMap (fun p => (processPath attempt shot v p).1)),
       viewports.flatMap (fun v => paths.flatMap (fun p => (processPath attempt shot v p).2))) := by
  unfold generateScreenshots
  simp only [foldl_accumulate2]
  simp

/-- In a `flatMap` over a list whose keys are duplicate-free, if every
element with a key other than `y0`'s contributes nothing, the whole
`flatMap` is `y0`'s contribution. -/
theorem flatMap_single_contrib {α β κ : Type} [DecidableEq κ] (key : α → κ)
    (l : List α) (hl : (l.map key).Nodup) (y0 : α) (hy0 : y0 ∈ l) (h : α → List β)
    (hoff : ∀ y, key y ≠ key y0 → h y = []) :
    l.flatMap h = h y0 := by
  induction l with
  | nil => cases hy0
  | cons a as ih =>
    rw [List.map_cons, List.nodup_cons] at hl
    rcases List.mem_cons.mp hy0 with heq | hy0'
    · subst heq
      have hrest : as.flatMap h = [] := by
        refine List.flatMap_eq_nil_iff.mpr (fun y hy => hoff y ?_)
        intro hk
        exact hl.1 (hk ▸ List.mem_map_of_mem key hy)
      simp [hrest]
    · have ha : h a = [] := by
        refine hoff a ?_
        intro hk
        refine hl.1 ?_
        rw [hk]
        exact List.mem_map_of_mem key hy0'
      simp [ha, ih hl.2 hy0']

/-- In a `flatMap` over a list whose keys are duplicate-free, if each
element contributes at most one item and elements keyed away from `k0`
contribute nothing, the whole `flatMap` has at most one item. -/
theorem flatMap_len_le_one {α β κ : Type} [DecidableEq κ] (key : α → κ) (k0 : κ)
    (l : List α) (hl : (l.map key).Nodup) (h : α → List β)
    (hlen : ∀ y, (h y).length ≤ 1) (hoff : ∀ y, key y ≠ k0 → h y = []) :
    (l.flatMap h).length ≤ 1 := by
  induction l with
  | nil => simp
  | cons a as ih =>
    rw [List.map_cons, List.nodup_cons] at hl
    by_cases hak : key a = k0
    · have hrest : as.flatMap h = [] := by
        refine List.flatMap_eq_nil_iff.mpr (fun y hy => hoff y ?_)
        intro hk
        have : key a ∈ as.map key := by
          rw [hak, ← hk]
          exact List.mem_map_of_mem key hy
        exact hl.1 this
      rw [List.flatMap_cons, hrest, List.append_nil]
      exact hlen a
    · have ha : h a = [] := hoff a hak
      rw [List.flatMap_cons, ha, List.nil_append]
      exact ih hl.2

/--
Claim C5: when every load strategy fails for a (path, viewport) pair,
`generateScreenshots` records exactly one `GenerationError` with stage
`"load"` for that pair and produces no screenshot result for it; and
(given the crawl's duplicate-free paths and the validated, unique
viewport names) no (path, viewport) pair ever appears more than once in
the accumulated error list.
-/
theorem C5_allfail_single_load_error
    (attempt : ViewportConfig → String → LoadStrategy → Except String Unit)
    (shot : ViewportConfig → String → Except String Unit)
    (viewports : List ViewportConfig) (paths : List String)
    (hpaths : paths.Nodup)
    (hnames : (viewports.map (fun v => v.name)).Nodup) :
    (∀ v0 ∈ viewports, ∀ p0 ∈ paths,
      (∀ s : LoadStrategy, ∃ e, attempt v0 p0 s = Except.error e) →
      (∃ msg, (generateScreenshots attempt shot viewports paths).2.filter
          (fun er => er.path == p0 && er.viewport == v0.name) =
        [⟨p0, v0.name, "load", msg⟩]) ∧
      (generateScreenshots attempt shot viewports paths).1.filter
          (fun r => r.path == p0 && r.viewport == v0.name) = []) ∧
    (∀ p0 vn0 : String,
      ((generateScreenshots attempt shot viewports paths).2.filter
        (fun er => er.path == p0 && er.viewport == vn0)).length ≤ 1) := by
  constructor
  · intro v0 hv0 p0 hp0 hfail
    obtain ⟨e1, h1⟩ := hfail .normal
    obtain ⟨e2, h2⟩ := hfail .extra_timeout
    obtain ⟨e3, h3⟩ := hfail .brutal
    have hpp := processPath_allfail attempt shot v0 p0 e1 e2 e3 h1 h2 h3
    constructor
    · refine ⟨e3, ?_⟩
      rw [generateScreenshots_eq]
      simp only [List.filter_flatMap]
      rw [flatMap_single_contrib (fun v : ViewportConfig => v.name) viewports hnames v0 hv0 _
        (by
          intro v hv
          refine List.flatMap_eq_nil_iff.mpr (fun p hp => ?_)
          refine List.filter_eq_nil_iff.mpr (fun er her => ?_)
          have hfld := processPath_error_fields attempt shot v p er her
          simp [hfld.2, hv])]
      rw [flatMap_single_contrib (fun p : String => p) paths (by simpa using hpaths) p0 hp0 _
        (by
          intro p hp
          refine List.filter_eq_nil_iff.mpr (fun er her => ?_)
          have hfld := processPath_error_fields attempt shot v0 p er her
          simp [hfld.1, hp])]
      rw [hpp]
      simp
    · rw [generateScreenshots_eq]
      simp only [List.filter_flatMap]
      refine List.flatMap_eq_nil_iff.mpr (fun v hv => ?_)
      refine List.flatMap_eq_nil_iff.mpr (fun p hp => ?_)
      by_cases hvname : v.name = v0.name
      · have hveq : v = v0 := List.inj_on_of_nodup_map hnames hv hv0 hvname
        subst hveq
        by_cases hpeq : p = p0
        · subst hpeq
          rw [hpp]
          simp
        · refine List.filter_eq_nil_iff.mpr (fun r hr => ?_)
          have hfld := processPath_result_fields attempt shot v p r hr
          simp [hfld.1, hpeq]
      · refine List.filter_eq_nil_iff.mpr (fun r hr => ?_)
        have hfld := processPath_result_fields attempt shot v p r hr
        simp [hfld.2, hvname]
  · intro p0 vn0
    rw [generateScreenshots_eq]
    simp only [List.filter_flatMap]
    refine flatMap_len_le_one (fun v : ViewportConfig => v.name) vn0 viewports hnames _ ?_ ?_
    · intro v
      refine flatMap_len_le_one (fun p : String => p) p0 paths (by simpa using hpaths) _ ?_ ?_
      · intro p
        calc ((processPath attempt shot v p).2.filter
              (fun er => er.path == p0 && er.viewport == vn0)).length
            ≤ ((processPath attempt shot v p).2).length := List.length_filter_le _ _
          _ ≤ 1 := processPath_errors_length attempt shot v p
      · intro p hp
        refine List.filter_eq_nil_iff.mpr (fun er her => ?_)
        have hfld := processPath_error_fields attempt shot v p er her
        simp [hfld.1, hp]
    · intro v hv
      refine List.flatMap_eq_nil_iff.mpr (fun p hp => ?_)
      refine List.filter_eq_nil_iff.mpr (fun er her => ?_)
      have hfld := processPath_error_fields attempt shot v p er her
      simp [hfld.2, hv]

/-- Concrete instance of `C5_allfail_single_load_error`: one viewport,
two paths, every strategy refused — the root path gets exactly one load
error and no artifact. -/
theorem C5_allfail_single_load_error_witness :
    (∃ msg, (generateScreenshots
        (fun _ _ _ => .error "net::ERR_CONNECTION_REFUSED") (fun _ _ => .ok ())
        [⟨"desktop", 1280, 720⟩] ["/", "/about"]).2.filter
          (fun er => er.path == "/" && er.viewport == "desktop") =
      [⟨"/", "desktop", "load", msg⟩]) ∧
    (generateScreenshots
        (fun _ _ _ => .error "net::ERR_CONNECTION_REFUSED") (fun _ _ => .ok ())
        [⟨"desktop", 1280, 720⟩] ["/", "/about"]).1.filter
          (fun r => r.path == "/" && r.viewport == "desktop") = [] ∧
    ((generateScreenshots
        (fun _ _ _ => .error "net::ERR_CONNECTION_REFUSED") (fun _ _ => .ok ())
        [⟨"desktop", 1280, 720⟩] ["/", "/about"]).2.filter
          (fun er => er.path == "/about" && er.viewport == "desktop")).length ≤ 1 :=
  ⟨((C5_allfail_single_load_error
      (fun _ _ _ => .error "net::ERR_CONNECTION_REFUSED") (fun _ _ => .ok ())
      [⟨"desktop", 1280, 720⟩] ["/", "/about"] (by decide) (by decide)).1
      ⟨"desktop", 1280, 720⟩ (by simp) "/" (by simp)
      (fun s => ⟨"net::ERR_CONNECTION_REFUSED", rfl⟩)).1,
   ((C5_allfail_single_load_error
      (fun _ _ _ => .error "net::ERR_CONNECTION_REFUSED") (fun _ _ => .ok ())
      [⟨"desktop", 1280, 720⟩] ["/", "/about"] (by decide) (by decide)).1
      ⟨"desktop", 1280, 720⟩ (by simp) "/" (by simp)
      (fun s => ⟨"net::ERR_CONNECTION_REFUSED", rfl⟩)).2,
   (C5_allfail_single_load_error
      (fun _ _ _ => .error "net::ERR_CONNECTION_REFUSED") (fun _ _ => .ok ())
      [⟨"desktop", 1280, 720⟩] ["/", "/about"] (by decide) (by decide)).2
      "/about" "desktop"⟩
